import Mathlib

/-!
Verification development for the `frequenz-api-electricity-trading` Python
client (files `_types.py` and `_client.py`).

The Python code is shallowly embedded:

* Protobuf wire messages become Lean structures.  A proto3 message field
  (which has explicit presence) is an `Option`; a proto3 scalar field
  (no presence) is a plain value whose "unset" form is its default
  (`0`, `""`, `[]`).  Constructing a message with a `None` keyword
  argument leaves the field unset, exactly as in protobuf Python.
* `decimal.Decimal` is modelled by its string representation
  (`PyDecimal`); `Decimal(str(d)) == d` holds in Python, and the code
  only ever converts via `str` / the `Decimal` constructor.
* `datetime` / `Timestamp` values are modelled by microseconds since the
  epoch; `FromDatetime` / `ToDatetime` preserve them.
* Python truthiness is embedded where the source uses it: `None`, `""`,
  `[]` and an empty dict are falsy; protobuf message objects, datetimes,
  enum members and dataclass instances are always truthy.
* `DeliveryPeriod` is a plain Python class (not a dataclass), so `==`
  and `hash` on it are the `object` defaults, i.e. object identity.  We
  model identity by an allocation id `oid` supplied at construction;
  separately constructed objects carry distinct oids.
* Fallible code (`raise ValueError`, `raise TypeError`) returns `Except`.
-/

deriving instance DecidableEq for Except

namespace ElecTrading

/-- Model of `decimal.Decimal`: the code stores a decimal only through
`str(d)` and re-parses with `Decimal(s)`, which is the identity on the
stored representation. -/
structure PyDecimal where
  val : String
deriving DecidableEq, Repr

/-- Model of a Python `datetime` (UTC), as microseconds since the epoch. -/
structure PyDatetime where
  micros : Int
deriving DecidableEq, Repr

/-- Model of a `google.protobuf.Timestamp` message. -/
structure PbTimestamp where
  micros : Int
deriving DecidableEq, Repr

/-- Model of `Timestamp.ToDatetime`. -/
def PbTimestamp.toDatetime (t : PbTimestamp) : PyDatetime :=
  ⟨t.micros⟩

/-- Model of `Timestamp.FromDatetime` (the timestamp that the call fills in). -/
def PyDatetime.toTimestamp (d : PyDatetime) : PbTimestamp :=
  ⟨d.micros⟩

/-- Model of `google.protobuf.struct_pb2.Value` dictionaries
(`dict[str, struct_pb2.Value]`), kept abstract as association lists. -/
abbrev PayloadDict : Type := List (String × String)

/-! ### Enumerations

Each `enum.Enum` in `_types.py` becomes an inductive type.  The numeric
wire codes are the generated proto codes, which number the variants in
declaration order starting at `0` (the `*_UNSPECIFIED` variant).  Every
`from_pb` classmethod in the source has the shape

    if not any(e.value == code for e in cls):
        _logger.warning(...)        # diagnostic
        return cls.UNSPECIFIED
    return cls(code)

which we capture once, generically: `enumFromPbLogged` returns the decoded
member together with a `Bool` that is `true` exactly when the warning
diagnostic was emitted. -/

/-- Generic model of the `from_pb` pattern shared by all enums in
`_types.py`: look the code up among the members, fall back to the
`UNSPECIFIED` member (and log) when the code is unknown. -/
def enumFromPbLogged {E : Type} (members : List E) (dflt : E) (toPb : E → Int)
    (c : Int) : E × Bool :=
  match members.find? (fun e => toPb e == c) with
  | some e => (e, false)
  | none => (dflt, true)

/-- A wire code is recognized when some member carries it. -/
def enumRecognized {E : Type} (members : List E) (toPb : E → Int) (c : Int) : Bool :=
  members.any (fun e => toPb e == c)

theorem enumFromPbLogged_of_not_recognized {E : Type} (members : List E) (dflt : E)
    (toPb : E → Int) (c : Int) (h : enumRecognized members toPb c = false) :
    enumFromPbLogged members dflt toPb c = (dflt, true) := by
  have hnone : members.find? (fun e => toPb e == c) = none := by
    rw [List.find?_eq_none]
    intro x hx hpx
    have : members.any (fun e => toPb e == c) = true :=
      List.any_eq_true.mpr ⟨x, hx, hpx⟩
    rw [enumRecognized] at h
    rw [this] at h
    exact Bool.noConfusion h
  unfold enumFromPbLogged
  rw [hnone]

theorem enumFromPbLogged_of_recognized {E : Type} (members : List E) (dflt : E)
    (toPb : E → Int) (c : Int) (h : enumRecognized members toPb c = true) :
    (enumFromPbLogged members dflt toPb c).2 = false ∧
      toPb (enumFromPbLogged members dflt toPb c).1 = c := by
  rw [enumRecognized, List.any_eq_true] at h
  obtain ⟨x, hx, hpx⟩ := h
  have hsome : (members.find? (fun e => toPb e == c)).isSome := by
    rw [List.find?_isSome]
    exact ⟨x, hx, hpx⟩
  unfold enumFromPbLogged
  cases hfind : members.find? (fun e => toPb e == c) with
  | none => rw [hfind] at hsome; exact Bool.noConfusion hsome
  | some e =>
    have hbeq := List.find?_some hfind
    simp only [beq_iff_eq] at hbeq
    exact ⟨rfl, hbeq⟩

/-- `Currency` enum from `_types.py` (codes from `price_pb2.Price.Currency`). -/
inductive Currency where
  | UNSPECIFIED | USD | CAD | EUR | GBP | CHF | CNY | JPY | AUD | NZD | SGD
deriving DecidableEq, Repr

def Currency.toPb : Currency → Int
  | .UNSPECIFIED => 0
  | .USD => 1
  | .CAD => 2
  | .EUR => 3
  | .GBP => 4
  | .CHF => 5
  | .CNY => 6
  | .JPY => 7
  | .AUD => 8
  | .NZD => 9
  | .SGD => 10

def Currency.members : List Currency :=
  [.UNSPECIFIED, .USD, .CAD, .EUR, .GBP, .CHF, .CNY, .JPY, .AUD, .NZD, .SGD]

/-- `Currency.from_pb`, with the diagnostic flag. -/
def Currency.fromPbLogged (c : Int) : Currency × Bool :=
  enumFromPbLogged Currency.members Currency.UNSPECIFIED Currency.toPb c

def Currency.fromPb (c : Int) : Currency :=
  (Currency.fromPbLogged c).1

/-- `EnergyMarketCodeType` enum from `_types.py`. -/
inductive EnergyMarketCodeType where
  | UNSPECIFIED | EUROPE_EIC | US_NERC
deriving DecidableEq, Repr

def EnergyMarketCodeType.toPb : EnergyMarketCodeType → Int
  | .UNSPECIFIED => 0
  | .EUROPE_EIC => 1
  | .US_NERC => 2

def EnergyMarketCodeType.members : List EnergyMarketCodeType :=
  [.UNSPECIFIED, .EUROPE_EIC, .US_NERC]

def EnergyMarketCodeType.fromPbLogged (c : Int) : EnergyMarketCodeType × Bool :=
  enumFromPbLogged EnergyMarketCodeType.members EnergyMarketCodeType.UNSPECIFIED
    EnergyMarketCodeType.toPb c

def EnergyMarketCodeType.fromPb (c : Int) : EnergyMarketCodeType :=
  (EnergyMarketCodeType.fromPbLogged c).1

/-- `DeliveryDuration` enum from `_types.py`. -/
inductive DeliveryDuration where
  | UNSPECIFIED | MINUTES_5 | MINUTES_15 | MINUTES_30 | MINUTES_60
deriving DecidableEq, Repr

def DeliveryDuration.toPb : DeliveryDuration → Int
  | .UNSPECIFIED => 0
  | .MINUTES_5 => 1
  | .MINUTES_15 => 2
  | .MINUTES_30 => 3
  | .MINUTES_60 => 4

def DeliveryDuration.members : List DeliveryDuration :=
  [.UNSPECIFIED, .MINUTES_5, .MINUTES_15, .MINUTES_30, .MINUTES_60]

def DeliveryDuration.fromPbLogged (c : Int) : DeliveryDuration × Bool :=
  enumFromPbLogged DeliveryDuration.members DeliveryDuration.UNSPECIFIED
    DeliveryDuration.toPb c

def DeliveryDuration.fromPb (c : Int) : DeliveryDuration :=
  (DeliveryDuration.fromPbLogged c).1

/-- `OrderExecutionOption` enum from `_types.py`. -/
inductive OrderExecutionOption where
  | UNSPECIFIED | NONE | AON | FOK | IOC
deriving DecidableEq, Repr

def OrderExecutionOption.toPb : OrderExecutionOption → Int
  | .UNSPECIFIED => 0
  | .NONE => 1
  | .AON => 2
  | .FOK => 3
  | .IOC => 4

def OrderExecutionOption.members : List OrderExecutionOption :=
  [.UNSPECIFIED, .NONE, .AON, .FOK, .IOC]

def OrderExecutionOption.fromPbLogged (c : Int) : OrderExecutionOption × Bool :=
  enumFromPbLogged OrderExecutionOption.members OrderExecutionOption.UNSPECIFIED
    OrderExecutionOption.toPb c

def OrderExecutionOption.fromPb (c : Int) : OrderExecutionOption :=
  (OrderExecutionOption.fromPbLogged c).1

/-- `OrderType` enum from `_types.py`. -/
inductive OrderType where
  | UNSPECIFIED | LIMIT | STOP_LIMIT | ICEBERG | BLOCK | BALANCE | PREARRANGED | PRIVATE
deriving DecidableEq, Repr

def OrderType.toPb : OrderType → Int
  | .UNSPECIFIED => 0
  | .LIMIT => 1
  | .STOP_LIMIT => 2
  | .ICEBERG => 3
  | .BLOCK => 4
  | .BALANCE => 5
  | .PREARRANGED => 6
  | .PRIVATE => 7

def OrderType.members : List OrderType :=
  [.UNSPECIFIED, .LIMIT, .STOP_LIMIT, .ICEBERG, .BLOCK, .BALANCE, .PREARRANGED, .PRIVATE]

def OrderType.fromPbLogged (c : Int) : OrderType × Bool :=
  enumFromPbLogged OrderType.members OrderType.UNSPECIFIED OrderType.toPb c

def OrderType.fromPb (c : Int) : OrderType :=
  (OrderType.fromPbLogged c).1

/-- `MarketSide` enum from `_types.py`. -/
inductive MarketSide where
  | UNSPECIFIED | BUY | SELL
deriving DecidableEq, Repr

def MarketSide.toPb : MarketSide → Int
  | .UNSPECIFIED => 0
  | .BUY => 1
  | .SELL => 2

def MarketSide.members : List MarketSide :=
  [.UNSPECIFIED, .BUY, .SELL]

def MarketSide.fromPbLogged (c : Int) : MarketSide × Bool :=
  enumFromPbLogged MarketSide.members MarketSide.UNSPECIFIED MarketSide.toPb c

def MarketSide.fromPb (c : Int) : MarketSide :=
  (MarketSide.fromPbLogged c).1

/-- `OrderState` enum from `_types.py`. -/
inductive OrderState where
  | UNSPECIFIED | PENDING | ACTIVE | FILLED | CANCELED | CANCEL_REQUESTED
  | CANCEL_REJECTED | EXPIRED | FAILED | HIBERNATE
deriving DecidableEq, Repr

def OrderState.toPb : OrderState → Int
  | .UNSPECIFIED => 0
  | .PENDING => 1
  | .ACTIVE => 2
  | .FILLED => 3
  | .CANCELED => 4
  | .CANCEL_REQUESTED => 5
  | .CANCEL_REJECTED => 6
  | .EXPIRED => 7
  | .FAILED => 8
  | .HIBERNATE => 9

def OrderState.members : List OrderState :=
  [.UNSPECIFIED, .PENDING, .ACTIVE, .FILLED, .CANCELED, .CANCEL_REQUESTED,
   .CANCEL_REJECTED, .EXPIRED, .FAILED, .HIBERNATE]

def OrderState.fromPbLogged (c : Int) : OrderState × Bool :=
  enumFromPbLogged OrderState.members OrderState.UNSPECIFIED OrderState.toPb c

def OrderState.fromPb (c : Int) : OrderState :=
  (OrderState.fromPbLogged c).1

/-- `TradeState` enum from `_types.py`. -/
inductive TradeState where
  | UNSPECIFIED | ACTIVE | CANCEL_REQUESTED | CANCEL_REJECTED | CANCELED
  | RECALL | RECALL_REQUESTED | RECALL_REJECTED | APPROVAL_REQUESTED
deriving DecidableEq, Repr

def TradeState.toPb : TradeState → Int
  | .UNSPECIFIED => 0
  | .ACTIVE => 1
  | .CANCEL_REQUESTED => 2
  | .CANCEL_REJECTED => 3
  | .CANCELED => 4
  | .RECALL => 5
  | .RECALL_REQUESTED => 6
  | .RECALL_REJECTED => 7
  | .APPROVAL_REQUESTED => 8

def TradeState.members : List TradeState :=
  [.UNSPECIFIED, .ACTIVE, .CANCEL_REQUESTED, .CANCEL_REJECTED, .CANCELED,
   .RECALL, .RECALL_REQUESTED, .RECALL_REJECTED, .APPROVAL_REQUESTED]

def TradeState.fromPbLogged (c : Int) : TradeState × Bool :=
  enumFromPbLogged TradeState.members TradeState.UNSPECIFIED TradeState.toPb c

def TradeState.fromPb (c : Int) : TradeState :=
  (TradeState.fromPbLogged c).1

/-- `StateReason` enum from `_types.py`
(`OrderDetail.StateDetail.StateReason` in the proto). -/
inductive StateReason where
  | UNSPECIFIED | ADD | MODIFY | DELETE | DEACTIVATE | REJECT
  | FULL_EXECUTION | PARTIAL_EXECUTION | ICEBERG_SLICE_ADD | VALIDATION_FAIL
  | UNKNOWN_STATE | QUOTE_ADD | QUOTE_FULL_EXECUTION | QUOTE_PARTIAL_EXECUTION
deriving DecidableEq, Repr

def StateReason.toPb : StateReason → Int
  | .UNSPECIFIED => 0
  | .ADD => 1
  | .MODIFY => 2
  | .DELETE => 3
  | .DEACTIVATE => 4
  | .REJECT => 5
  | .FULL_EXECUTION => 6
  | .PARTIAL_EXECUTION => 7
  | .ICEBERG_SLICE_ADD => 8
  | .VALIDATION_FAIL => 9
  | .UNKNOWN_STATE => 10
  | .QUOTE_ADD => 11
  | .QUOTE_FULL_EXECUTION => 12
  | .QUOTE_PARTIAL_EXECUTION => 13

def StateReason.members : List StateReason :=
  [.UNSPECIFIED, .ADD, .MODIFY, .DELETE, .DEACTIVATE, .REJECT,
   .FULL_EXECUTION, .PARTIAL_EXECUTION, .ICEBERG_SLICE_ADD, .VALIDATION_FAIL,
   .UNKNOWN_STATE, .QUOTE_ADD, .QUOTE_FULL_EXECUTION, .QUOTE_PARTIAL_EXECUTION]

def StateReason.fromPbLogged (c : Int) : StateReason × Bool :=
  enumFromPbLogged StateReason.members StateReason.UNSPECIFIED StateReason.toPb c

def StateReason.fromPb (c : Int) : StateReason :=
  (StateReason.fromPbLogged c).1

/-- `MarketActor` enum from `_types.py`
(`OrderDetail.StateDetail.MarketActor` in the proto). -/
inductive MarketActor where
  | UNSPECIFIED | USER | MARKET_OPERATOR | SYSTEM
deriving DecidableEq, Repr

def MarketActor.toPb : MarketActor → Int
  | .UNSPECIFIED => 0
  | .USER => 1
  | .MARKET_OPERATOR => 2
  | .SYSTEM => 3

def MarketActor.members : List MarketActor :=
  [.UNSPECIFIED, .USER, .MARKET_OPERATOR, .SYSTEM]

def MarketActor.fromPbLogged (c : Int) : MarketActor × Bool :=
  enumFromPbLogged MarketActor.members MarketActor.UNSPECIFIED MarketActor.toPb c

def MarketActor.fromPb (c : Int) : MarketActor :=
  (MarketActor.fromPbLogged c).1

/-! ### Simple value types and their wire messages -/

/-- Wire `google.type.Decimal`. -/
structure PbDecimal where
  val : String
deriving DecidableEq, Repr

/-- Wire `price_pb2.Price`: a `Decimal` amount and a `Currency` enum code. -/
structure PbPrice where
  amount : PbDecimal
  currency : Int
deriving DecidableEq, Repr

/-- Domain `Price` (frozen dataclass). -/
structure Price where
  amount : PyDecimal
  currency : Currency
deriving DecidableEq, Repr

/-- `Price.from_pb`. -/
def Price.fromPb (p : PbPrice) : Price :=
  ⟨⟨p.amount.val⟩, Currency.fromPb p.currency⟩

/-- `Price.to_pb`: `decimal_amount.value = str(self.amount)`. -/
def Price.toPb (p : Price) : PbPrice :=
  ⟨⟨p.amount.val⟩, p.currency.toPb⟩

/-- Wire `energy_pb2.Energy`. -/
structure PbEnergy where
  mwh : PbDecimal
deriving DecidableEq, Repr

/-- Domain `Energy` (frozen dataclass). -/
structure Energy where
  mwh : PyDecimal
deriving DecidableEq, Repr

/-- `Energy.from_pb`. -/
def Energy.fromPb (e : PbEnergy) : Energy :=
  ⟨⟨e.mwh.val⟩⟩

/-- `Energy.to_pb`. -/
def Energy.toPb (e : Energy) : PbEnergy :=
  ⟨⟨e.mwh.val⟩⟩

/-- Wire `delivery_area_pb2.DeliveryArea`: a string code (proto3 scalar,
default `""`) and an enum code. -/
structure PbDeliveryArea where
  code : String
  code_type : Int
deriving DecidableEq, Repr

/-- Domain `DeliveryArea` (frozen dataclass). -/
structure DeliveryArea where
  code : String
  code_type : EnergyMarketCodeType
deriving DecidableEq, Repr

/-- `DeliveryArea.from_pb`. -/
def DeliveryArea.fromPb (d : PbDeliveryArea) : DeliveryArea :=
  ⟨d.code, EnergyMarketCodeType.fromPb d.code_type⟩

/-- `DeliveryArea.to_pb`. -/
def DeliveryArea.toPb (d : DeliveryArea) : PbDeliveryArea :=
  ⟨d.code, d.code_type.toPb⟩

/-- Wire `delivery_duration_pb2.DeliveryPeriod`: a `Timestamp` submessage
(read without a presence check in `from_pb`, so modelled by its value with
the unset default `⟨0⟩`) and a `DeliveryDuration` enum code. -/
structure PbDeliveryPeriod where
  start : PbTimestamp
  duration : Int
deriving DecidableEq, Repr

/-- Domain `DeliveryPeriod`.  This is a plain Python class, not a dataclass:
`==` and `hash` fall back to object identity, modelled by the allocation id
`oid` that every act of construction supplies (fresh allocations have fresh
oids). -/
structure DeliveryPeriod where
  oid : Nat
  start : PyDatetime
  duration : DeliveryDuration
deriving DecidableEq, Repr

/-- Python `==` on `DeliveryPeriod`: the `object.__eq__` default, i.e.
identity. -/
def DeliveryPeriod.pyEq (a b : DeliveryPeriod) : Bool :=
  a.oid == b.oid

/-- Python `hash` on `DeliveryPeriod`: the `object.__hash__` default, an
injective function of the object id. -/
def DeliveryPeriod.pyHash (a : DeliveryPeriod) : Nat :=
  a.oid

/-- Number of microseconds in one minute (`timedelta` arithmetic is exact
in microseconds). -/
def microsPerMinute : Int := 60000000

/-- `DeliveryPeriod.__init__`: matches `duration.total_seconds() / 60`
against the literals `5 | 15 | 30 | 60` (exact comparison; a `timedelta`
is an exact count of microseconds) and raises `ValueError` otherwise.
`durationMicros` is the `timedelta` argument in microseconds and `oid`
the identity of the newly constructed object. -/
def DeliveryPeriod.init (oid : Nat) (start : PyDatetime) (durationMicros : Int) :
    Except String DeliveryPeriod :=
  if durationMicros == 5 * microsPerMinute then
    .ok ⟨oid, start, DeliveryDuration.MINUTES_5⟩
  else if durationMicros == 15 * microsPerMinute then
    .ok ⟨oid, start, DeliveryDuration.MINUTES_15⟩
  else if durationMicros == 30 * microsPerMinute then
    .ok ⟨oid, start, DeliveryDuration.MINUTES_30⟩
  else if durationMicros == 60 * microsPerMinute then
    .ok ⟨oid, start, DeliveryDuration.MINUTES_60⟩
  else
    .error "Invalid duration value. Duration must be 5, 15, 30, or 60 minutes."

/-- `DeliveryPeriod.from_pb`: decodes the duration enum, translates the
recognized variants back to a `timedelta` and calls the constructor;
`UNSPECIFIED` (and unknown codes, which decode to it) raise `ValueError`. -/
def DeliveryPeriod.fromPb (w : PbDeliveryPeriod) (oid : Nat) :
    Except String DeliveryPeriod :=
  match DeliveryDuration.fromPb w.duration with
  | .MINUTES_5 => DeliveryPeriod.init oid w.start.toDatetime (5 * microsPerMinute)
  | .MINUTES_15 => DeliveryPeriod.init oid w.start.toDatetime (15 * microsPerMinute)
  | .MINUTES_30 => DeliveryPeriod.init oid w.start.toDatetime (30 * microsPerMinute)
  | .MINUTES_60 => DeliveryPeriod.init oid w.start.toDatetime (60 * microsPerMinute)
  | .UNSPECIFIED =>
    .error "Invalid duration value. Duration must be 5, 15, 30, or 60 minutes."

/-- `DeliveryPeriod.to_pb`. -/
def DeliveryPeriod.toPb (p : DeliveryPeriod) : PbDeliveryPeriod :=
  ⟨p.start.toTimestamp, p.duration.toPb⟩

/-- Wire `pagination_params_pb2.PaginationParams`: proto3 scalars without
presence, so an unset field reads back as `0` / `""`. -/
structure PbPaginationParams where
  page_size : Int
  page_token : String
deriving DecidableEq, Repr

/-- Domain `PaginationParams` (frozen dataclass with `None` defaults). -/
structure PaginationParams where
  page_size : Option Int
  page_token : Option String
deriving DecidableEq, Repr

/-- `PaginationParams.from_pb`: reads the scalar fields directly, so the
result always holds concrete values (`0` / `""` when unset), never `None`. -/
def PaginationParams.fromPb (w : PbPaginationParams) : PaginationParams :=
  ⟨some w.page_size, some w.page_token⟩

/-- `PaginationParams.to_pb`: passing `None` as a keyword leaves the proto3
scalar unset, i.e. at its default. -/
def PaginationParams.toPb (p : PaginationParams) : PbPaginationParams :=
  ⟨p.page_size.getD 0, p.page_token.getD ""⟩

/-! ### Order and its wire message -/

/-- Wire `electricity_trading_pb2.Order`.  Fields that `Order.from_pb`
reads through `HasField` (the submessages `stop_price`, `peak_price_delta`,
`display_quantity`, the `optional` enum `execution_option`) are `Option`s;
`valid_until` and `payload` are submessages with presence as well;
`tag` is a plain proto3 string (default `""`).  `delivery_area`,
`delivery_period`, `price` and `quantity` are read without presence
checks, so they are modelled by their value (with the message default
substituted by the caller when unset). -/
structure PbOrder where
  delivery_area : PbDeliveryArea
  delivery_period : PbDeliveryPeriod
  type : Int
  side : Int
  price : PbPrice
  quantity : PbEnergy
  stop_price : Option PbPrice
  peak_price_delta : Option PbPrice
  display_quantity : Option PbEnergy
  execution_option : Option Int
  valid_until : Option PbTimestamp
  payload : Option PayloadDict
  tag : String
deriving DecidableEq, Repr

/-- Domain `Order` (frozen dataclass). -/
structure Order where
  delivery_area : DeliveryArea
  delivery_period : DeliveryPeriod
  type : OrderType
  side : MarketSide
  price : Price
  quantity : Energy
  stop_price : Option Price
  peak_price_delta : Option Price
  display_quantity : Option Energy
  execution_option : Option OrderExecutionOption
  valid_until : Option PyDatetime
  payload : Option PayloadDict
  tag : Option String
deriving DecidableEq, Repr

/-- `Order.from_pb`.  `stop_price`, `peak_price_delta`, `display_quantity`
and `execution_option` use `HasField`, hence decode to `None` when absent.
`valid_until` and `payload` are guarded only by message truthiness, and a
protobuf message object is always truthy, so they always decode to a value
(the epoch timestamp / the empty dict when the field is unset).  `tag`
uses string truthiness, so `""` decodes to `None`.  The nested
`DeliveryPeriod.from_pb` call can raise `ValueError`; `oid` is the
identity of the freshly constructed period. -/
def Order.fromPb (w : PbOrder) (oid : Nat) : Except String Order :=
  match DeliveryPeriod.fromPb w.delivery_period oid with
  | .error e => .error e
  | .ok dp =>
    .ok ⟨DeliveryArea.fromPb w.delivery_area, dp,
      OrderType.fromPb w.type, MarketSide.fromPb w.side,
      Price.fromPb w.price, Energy.fromPb w.quantity,
      w.stop_price.map Price.fromPb,
      w.peak_price_delta.map Price.fromPb,
      w.display_quantity.map Energy.fromPb,
      w.execution_option.map OrderExecutionOption.fromPb,
      some (w.valid_until.getD ⟨0⟩).toDatetime,
      some (w.payload.getD []),
      if w.tag == "" then none else some w.tag⟩

/-- `Order.to_pb`.  `None` optional fields are passed as `None` keywords
and stay unset on the wire; `payload` additionally tests dict truthiness
(an empty dict is falsy) and `tag` string truthiness (`""` is falsy),
so those also end up unset. -/
def Order.toPb (o : Order) : PbOrder :=
  ⟨o.delivery_area.toPb, o.delivery_period.toPb,
    o.type.toPb, o.side.toPb,
    o.price.toPb, o.quantity.toPb,
    o.stop_price.map Price.toPb,
    o.peak_price_delta.map Price.toPb,
    o.display_quantity.map Energy.toPb,
    o.execution_option.map OrderExecutionOption.toPb,
    o.valid_until.map PyDatetime.toTimestamp,
    match o.payload with
    | some l => if l.isEmpty then none else some l
    | none => none,
    o.tag.getD ""⟩

/-! ### Filter types and their wire messages -/

/-- Wire `electricity_trading_pb2.GridpoolOrderFilter`: a repeated enum
field `states` (no presence: unset reads `[]`), a plain enum `side`
(unset reads `0`), submessages `delivery_period` / `delivery_area`
(presence), and a plain string `tag`. -/
structure PbGridpoolOrderFilter where
  states : List Int
  side : Int
  delivery_period : Option PbDeliveryPeriod
  delivery_area : Option PbDeliveryArea
  tag : String
deriving DecidableEq, Repr

/-- Domain `GridpoolOrderFilter` (frozen dataclass). -/
structure GridpoolOrderFilter where
  order_states : Option (List OrderState)
  side : Option MarketSide
  delivery_period : Option DeliveryPeriod
  delivery_area : Option DeliveryArea
  tag : Option String
deriving DecidableEq, Repr

/-- Default (all-unset) wire `DeliveryPeriod` submessage. -/
def PbDeliveryPeriod.dflt : PbDeliveryPeriod := ⟨⟨0⟩, 0⟩

/-- Default (all-unset) wire `DeliveryArea` submessage. -/
def PbDeliveryArea.dflt : PbDeliveryArea := ⟨"", 0⟩

/-- `GridpoolOrderFilter.from_pb`: every field is read without a presence
check, so the result's fields are always populated (`[]`, `UNSPECIFIED`,
`""` for unset wire fields) and `DeliveryPeriod.from_pb` is applied to the
default submessage when `delivery_period` is unset, which raises
`ValueError` (duration `0` is `UNSPECIFIED`). -/
def GridpoolOrderFilter.fromPb (w : PbGridpoolOrderFilter) (oid : Nat) :
    Except String GridpoolOrderFilter :=
  match DeliveryPeriod.fromPb (w.delivery_period.getD PbDeliveryPeriod.dflt) oid with
  | .error e => .error e
  | .ok dp =>
    .ok ⟨some (w.states.map OrderState.fromPb),
      some (MarketSide.fromPb w.side),
      some dp,
      some (DeliveryArea.fromPb (w.delivery_area.getD PbDeliveryArea.dflt)),
      some w.tag⟩

/-- `GridpoolOrderFilter.to_pb`: each `if self.x else None` guard tests
Python truthiness, so `None` fields, the empty list and the empty string
are all passed as `None` and stay unset. -/
def GridpoolOrderFilter.toPb (f : GridpoolOrderFilter) : PbGridpoolOrderFilter :=
  ⟨match f.order_states with
    | some l => if l.isEmpty then [] else l.map OrderState.toPb
    | none => [],
    (f.side.map MarketSide.toPb).getD 0,
    f.delivery_period.map DeliveryPeriod.toPb,
    f.delivery_area.map DeliveryArea.toPb,
    f.tag.getD ""⟩

/-- Domain `GridpoolTradeFilter` (frozen dataclass). -/
structure GridpoolTradeFilter where
  trade_states : Option (List TradeState)
  trade_id_lists : Option (List Int)
  side : Option MarketSide
  delivery_period : Option DeliveryPeriod
  delivery_area : Option DeliveryArea
deriving DecidableEq, Repr

/-- Domain `PublicTradeFilter` (frozen dataclass). -/
structure PublicTradeFilter where
  states : Option (List TradeState)
  delivery_period : Option DeliveryPeriod
  buy_delivery_area : Option DeliveryArea
  sell_delivery_area : Option DeliveryArea
deriving DecidableEq, Repr

/-! ### Python equality and hashing of the subscription keys

A frozen dataclass compares and hashes as the tuple of its fields.  All
field types except `DeliveryPeriod` have structural `==` (strings, ints,
enum members, lists, `None`, and the frozen dataclasses `DeliveryArea`
etc.), so their Python `==` coincides with Lean equality of the models.
`DeliveryPeriod` falls back to `object.__eq__`, i.e. identity.  Hashing a
`list` raises `TypeError`, which the generated dataclass `__hash__`
propagates. -/

/-- Python `==` on an optional field whose payload compares with `eq`. -/
def optPyEq {α : Type} (eq : α → α → Bool) : Option α → Option α → Bool
  | none, none => true
  | some a, some b => eq a b
  | _, _ => false

/-- Cantor pairing, used to combine field hashes deterministically. -/
def natPair (a b : Nat) : Nat :=
  (a + b) * (a + b + 1) / 2 + b

/-- Stand-in for Python's string hash (any deterministic function of the
string is a faithful model of the properties used here). -/
def strHash (s : String) : Nat :=
  (s.toList.map Char.toNat).sum + s.length

/-- Stand-in for Python's int hash. -/
def intHash (i : Int) : Nat :=
  i.natAbs * 2 + (if i < 0 then 1 else 0)

/-- Hash of an optional hashable field (`hash(None)` is a constant). -/
def optHash {α : Type} (h : α → Nat) : Option α → Nat
  | none => 0
  | some a => natPair 1 (h a)

def DeliveryArea.pyHash (d : DeliveryArea) : Nat :=
  natPair (strHash d.code) (intHash d.code_type.toPb)

/-- Python `==` on `GridpoolOrderFilter`: the generated dataclass equality,
which compares the field tuples; the nested `DeliveryPeriod` is compared by
identity. -/
def GridpoolOrderFilter.pyEq (a b : GridpoolOrderFilter) : Bool :=
  a.order_states == b.order_states &&
  a.side == b.side &&
  optPyEq DeliveryPeriod.pyEq a.delivery_period b.delivery_period &&
  a.delivery_area == b.delivery_area &&
  a.tag == b.tag

/-- Python `hash` on `GridpoolOrderFilter`: the generated dataclass hash of
the field tuple.  Hashing the `order_states` list raises `TypeError`. -/
def GridpoolOrderFilter.pyHash (f : GridpoolOrderFilter) : Except String Nat :=
  match f.order_states with
  | some _ => .error "TypeError: unhashable type: list"
  | none =>
    .ok (natPair (optHash (fun s : MarketSide => intHash s.toPb) f.side)
      (natPair (optHash DeliveryPeriod.pyHash f.delivery_period)
        (natPair (optHash DeliveryArea.pyHash f.delivery_area)
          (optHash strHash f.tag))))

/-- Python `==` on `GridpoolTradeFilter`. -/
def GridpoolTradeFilter.pyEq (a b : GridpoolTradeFilter) : Bool :=
  a.trade_states == b.trade_states &&
  a.trade_id_lists == b.trade_id_lists &&
  a.side == b.side &&
  optPyEq DeliveryPeriod.pyEq a.delivery_period b.delivery_period &&
  a.delivery_area == b.delivery_area

/-- Python `hash` on `GridpoolTradeFilter`: raises `TypeError` when either
list field is present (the tuple hash consumes the fields in order). -/
def GridpoolTradeFilter.pyHash (f : GridpoolTradeFilter) : Except String Nat :=
  match f.trade_states with
  | some _ => .error "TypeError: unhashable type: list"
  | none =>
    match f.trade_id_lists with
    | some _ => .error "TypeError: unhashable type: list"
    | none =>
      .ok (natPair (optHash (fun s : MarketSide => intHash s.toPb) f.side)
        (natPair (optHash DeliveryPeriod.pyHash f.delivery_period)
          (optHash DeliveryArea.pyHash f.delivery_area)))

/-- Python `==` on `PublicTradeFilter`. -/
def PublicTradeFilter.pyEq (a b : PublicTradeFilter) : Bool :=
  a.states == b.states &&
  optPyEq DeliveryPeriod.pyEq a.delivery_period b.delivery_period &&
  a.buy_delivery_area == b.buy_delivery_area &&
  a.sell_delivery_area == b.sell_delivery_area

/-- Python `hash` on `PublicTradeFilter`: raises `TypeError` when the
`states` list is present. -/
def PublicTradeFilter.pyHash (f : PublicTradeFilter) : Except String Nat :=
  match f.states with
  | some _ => .error "TypeError: unhashable type: list"
  | none =>
    .ok (natPair (optHash DeliveryPeriod.pyHash f.delivery_period)
      (natPair (optHash DeliveryArea.pyHash f.buy_delivery_area)
        (optHash DeliveryArea.pyHash f.sell_delivery_area)))

/-! ### The stream registries of `Client`

`Client.__init__` creates three dicts mapping a subscription key to a
`GrpcStreamingHelper`.  Each `stream_*` method builds its key, then runs

    if stream_key not in self._streams:
        self._streams[stream_key] = GrpcStreamingHelper(..., factory, decode)
    return self._streams[stream_key].new_receiver()

The dict is modelled as an association list in insertion order together
with a construction counter: a helper is identified by `hid`, the value of
the counter when its factory was wrapped (so `nextHid` equals the number of
`GrpcStreamingHelper` constructions performed so far), and `new_receiver`
is modelled by returning the id of the helper the receiver attaches to.
The `in` test first hashes the key, which can raise `TypeError`. -/

/-- One `GrpcStreamingHelper` instance, identified by construction order. -/
structure Helper where
  hid : Nat
deriving DecidableEq, Repr

/-- One of the three stream registries of `Client`. -/
structure PyDict (κ : Type) where
  entries : List (κ × Helper)
  nextHid : Nat
deriving DecidableEq, Repr

/-- The registries start empty (`Client.__init__`). -/
def PyDict.empty {κ : Type} : PyDict κ :=
  ⟨[], 0⟩

/-- Python dict lookup once the hash is computed: probe with `==`. -/
def dictFind? {κ : Type} (eq : κ → κ → Bool) (entries : List (κ × Helper))
    (k : κ) : Option (κ × Helper) :=
  entries.find? (fun e => eq e.1 k)

/-- Common body of the three `stream_*` methods: hash the key (may raise
`TypeError`), reuse the existing helper when the key is present, otherwise
construct a new `GrpcStreamingHelper` (invoking no upstream factory until
the helper pumps) and register it; finally return a new receiver from the
helper stored under the key. -/
def streamSubscribe {κ : Type} (hash : κ → Except String Nat)
    (eq : κ → κ → Bool) (s : PyDict κ) (k : κ) :
    Except String (PyDict κ × Nat) :=
  match hash k with
  | .error e => .error e
  | .ok _ =>
    match dictFind? eq s.entries k with
    | some e => .ok (s, e.2.hid)
    | none => .ok (⟨s.entries ++ [(k, ⟨s.nextHid⟩)], s.nextHid + 1⟩, s.nextHid)

/-- Subscription key of `stream_gridpool_orders`: `(gridpool_id, filter)`. -/
abbrev OrdersKey : Type := Int × GridpoolOrderFilter

/-- Python `==` on the orders key tuple. -/
def ordersKeyEq (a b : OrdersKey) : Bool :=
  a.1 == b.1 && GridpoolOrderFilter.pyEq a.2 b.2

/-- Python `hash` on the orders key tuple (hashes the elements first). -/
def ordersKeyHash (k : OrdersKey) : Except String Nat :=
  (GridpoolOrderFilter.pyHash k.2).map (fun h => natPair (intHash k.1) h)

/-- `Client.stream_gridpool_orders`: builds the filter from the keyword
arguments, forms the key and subscribes.  Nothing is sent on the network
by this method itself; the upstream call is deferred to the helper. -/
def streamGridpoolOrders (s : PyDict OrdersKey) (gridpool_id : Int)
    (order_states : Option (List OrderState)) (market_side : Option MarketSide)
    (delivery_area : Option DeliveryArea) (delivery_period : Option DeliveryPeriod)
    (tag : Option String) : Except String (PyDict OrdersKey × Nat) :=
  streamSubscribe ordersKeyHash ordersKeyEq s
    (gridpool_id, ⟨order_states, market_side, delivery_period, delivery_area, tag⟩)

/-- Subscription key of `stream_gridpool_trades`. -/
abbrev TradesKey : Type := Int × GridpoolTradeFilter

def tradesKeyEq (a b : TradesKey) : Bool :=
  a.1 == b.1 && GridpoolTradeFilter.pyEq a.2 b.2

def tradesKeyHash (k : TradesKey) : Except String Nat :=
  (GridpoolTradeFilter.pyHash k.2).map (fun h => natPair (intHash k.1) h)

/-- `Client.stream_gridpool_trades`. -/
def streamGridpoolTrades (s : PyDict TradesKey) (gridpool_id : Int)
    (trade_states : Option (List TradeState)) (trade_ids : Option (List Int))
    (market_side : Option MarketSide) (delivery_period : Option DeliveryPeriod)
    (delivery_area : Option DeliveryArea) : Except String (PyDict TradesKey × Nat) :=
  streamSubscribe tradesKeyHash tradesKeyEq s
    (gridpool_id, ⟨trade_states, trade_ids, market_side, delivery_period, delivery_area⟩)

/-- `Client.stream_public_trades` (keyed by the filter alone). -/
def streamPublicTrades (s : PyDict PublicTradeFilter)
    (states : Option (List TradeState)) (delivery_period : Option DeliveryPeriod)
    (buy_delivery_area : Option DeliveryArea)
    (sell_delivery_area : Option DeliveryArea) :
    Except String (PyDict PublicTradeFilter × Nat) :=
  streamSubscribe PublicTradeFilter.pyHash PublicTradeFilter.pyEq s
    ⟨states, delivery_period, buy_delivery_area, sell_delivery_area⟩

/-- Client-visible events touching one stream registry. -/
inductive ClientEvent (κ : Type) where
  | subscribeKey (k : κ)
  | upstreamTerminated (k : κ)

/-- Effect of an event on a registry.  `_client.py` registers no callback
for upstream termination and contains no statement that deletes from any
of the three stream dicts, so termination leaves the registry unchanged
(whatever teardown happens is internal to the external
`GrpcStreamingHelper` object, which holds no reference to these dicts).
A `stream_*` call that raises (unhashable key) also leaves it unchanged. -/
def clientStep {κ : Type} (hash : κ → Except String Nat) (eq : κ → κ → Bool)
    (s : PyDict κ) : ClientEvent κ → PyDict κ
  | .subscribeKey k =>
    match streamSubscribe hash eq s k with
    | .ok (s1, _) => s1
    | .error _ => s
  | .upstreamTerminated _ => s

/-! ### Partial update: `UpdateOrder` and `Client.update_gridpool_order` -/

/-- A keyword argument of `update_gridpool_order`, whose default is the
`NO_VALUE` sentinel and which may also be an explicit `None` or a value. -/
inductive PyOpt (α : Type) where
  | noValue
  | pyNone
  | val (a : α)
deriving DecidableEq, Repr

/-- The test `value is not NO_VALUE`. -/
def PyOpt.isProvided {α : Type} : PyOpt α → Bool
  | .noValue => false
  | _ => true

/-- The expression `None if x is NO_VALUE else x` (typed `α | None`). -/
def PyOpt.toOption {α : Type} : PyOpt α → Option α
  | .val a => some a
  | _ => none

/-- Domain `UpdateOrder` (frozen dataclass, all fields `None` by default). -/
structure UpdateOrder where
  price : Option Price
  quantity : Option Energy
  stop_price : Option Price
  peak_price_delta : Option Price
  display_quantity : Option Energy
  execution_option : Option OrderExecutionOption
  valid_until : Option PyDatetime
  payload : Option PayloadDict
  tag : Option String
deriving DecidableEq, Repr

/-- Wire `UpdateGridpoolOrderRequest.UpdateOrder`: every field carries
explicit presence (`from_pb` reads them through `HasField`). -/
structure PbUpdateOrder where
  price : Option PbPrice
  quantity : Option PbEnergy
  stop_price : Option PbPrice
  peak_price_delta : Option PbPrice
  display_quantity : Option PbEnergy
  execution_option : Option Int
  valid_until : Option PbTimestamp
  payload : Option PayloadDict
  tag : Option String
deriving DecidableEq, Repr

/-- `UpdateOrder.to_pb`: every `if self.x else None` guard tests Python
truthiness, so `None` stays unset, and additionally an empty payload dict
and an empty tag string are falsy and stay unset. -/
def UpdateOrder.toPb (o : UpdateOrder) : PbUpdateOrder :=
  ⟨o.price.map Price.toPb,
    o.quantity.map Energy.toPb,
    o.stop_price.map Price.toPb,
    o.peak_price_delta.map Price.toPb,
    o.display_quantity.map Energy.toPb,
    o.execution_option.map OrderExecutionOption.toPb,
    o.valid_until.map PyDatetime.toTimestamp,
    match o.payload with
    | some l => if l.isEmpty then none else some l
    | none => none,
    match o.tag with
    | some s => if s == "" then none else some s
    | none => none⟩

/-- Wire `UpdateGridpoolOrderRequest`, with the field mask as the list of
path strings. -/
structure UpdateGridpoolOrderRequest where
  gridpool_id : Int
  order_id : Int
  update_order_fields : PbUpdateOrder
  update_mask : List String
deriving DecidableEq, Repr

/-- The nine keyword arguments of `update_gridpool_order`. -/
structure UpdateOrderArgs where
  price : PyOpt Price
  quantity : PyOpt Energy
  stop_price : PyOpt Price
  peak_price_delta : PyOpt Price
  display_quantity : PyOpt Energy
  execution_option : PyOpt OrderExecutionOption
  valid_until : PyOpt PyDatetime
  payload : PyOpt PayloadDict
  tag : PyOpt String
deriving DecidableEq, Repr

/-- The `params` dict of `update_gridpool_order`, in insertion order,
paired with `value is not NO_VALUE`. -/
def updateParams (a : UpdateOrderArgs) : List (String × Bool) :=
  [("price", a.price.isProvided),
   ("quantity", a.quantity.isProvided),
   ("stop_price", a.stop_price.isProvided),
   ("peak_price_delta", a.peak_price_delta.isProvided),
   ("display_quantity", a.display_quantity.isProvided),
   ("execution_option", a.execution_option.isProvided),
   ("valid_until", a.valid_until.isProvided),
   ("payload", a.payload.isProvided),
   ("tag", a.tag.isProvided)]

/-- `Client.update_gridpool_order`, up to the stub call: raises
`ValueError` when every argument is `NO_VALUE` — before anything touches
the network — and otherwise builds the request with
`paths = [param for param, value in params.items() if value is not NO_VALUE]`
as the field mask. -/
def updateGridpoolOrder (gridpool_id order_id : Int) (a : UpdateOrderArgs) :
    Except String UpdateGridpoolOrderRequest :=
  if (updateParams a).all (fun p => !p.2) then
    .error "At least one field to update must be provided."
  else
    .ok ⟨gridpool_id, order_id,
      UpdateOrder.toPb ⟨a.price.toOption, a.quantity.toOption,
        a.stop_price.toOption, a.peak_price_delta.toOption,
        a.display_quantity.toOption, a.execution_option.toOption,
        a.valid_until.toOption, a.payload.toOption, a.tag.toOption⟩,
      ((updateParams a).filter (fun p => p.2)).map Prod.fst⟩

/-! ### Fan-out pump

Modelled from the spec: the per-key fan-out pump lives in
`GrpcStreamingHelper` (package `frequenz.client.base`), which is external
to `src/`; only its construction and `new_receiver` calls appear there.
Spec sections 4.1 and 5 describe it: the pump reads one item at a time
from the upstream stream and pushes it, in the order received, to every
currently-registered consumer; a consumer that joins is added to the
fan-out set and receives only items arriving afterwards.  `log` is the
(ghost) history of items pumped so far and `joinIdx` how many had been
pumped when the consumer joined. -/

/-- One registered consumer of a pump. -/
structure Consumer (α : Type) where
  cid : Nat
  joinIdx : Nat
  items : List α
deriving DecidableEq, Repr

/-- State of the fan-out pump for one subscription key. -/
structure PumpState (α : Type) where
  log : List α
  consumers : List (Consumer α)
  nextCid : Nat
deriving DecidableEq, Repr

/-- Pump state before any event. -/
def PumpState.start {α : Type} : PumpState α :=
  ⟨[], [], 0⟩

/-- Events processed by the pump (cooperative scheduling: one at a time). -/
inductive PumpEvent (α : Type) where
  | join
  | deliver (a : α)
deriving DecidableEq, Repr

/-- One pump step: a join registers a fresh consumer with no backlog; a
delivery appends the item to every registered consumer, in place, keeping
the upstream order. -/
def pumpStep {α : Type} (s : PumpState α) : PumpEvent α → PumpState α
  | .join => ⟨s.log, s.consumers ++ [⟨s.nextCid, s.log.length, []⟩], s.nextCid + 1⟩
  | .deliver a =>
    ⟨s.log ++ [a],
      s.consumers.map (fun c => ⟨c.cid, c.joinIdx, c.items ++ [a]⟩),
      s.nextCid⟩

/-- Run the pump over a sequence of events. -/
def pumpRun {α : Type} (s : PumpState α) (evs : List (PumpEvent α)) : PumpState α :=
  evs.foldl pumpStep s

/-- The upstream items of an event sequence, in order. -/
def delivered {α : Type} (evs : List (PumpEvent α)) : List α :=
  evs.filterMap (fun e => match e with | .deliver a => some a | .join => none)

/-! ## Theorems -/

/-! ### Shared helper lemmas -/

theorem currency_fromPb_toPb (c : Currency) : Currency.fromPb c.toPb = c := by
  cases c <;> rfl

theorem energyMarketCodeType_fromPb_toPb (c : EnergyMarketCodeType) :
    EnergyMarketCodeType.fromPb c.toPb = c := by
  cases c <;> rfl

/-! ### C7: enum decoding is total, unknown codes go to UNSPECIFIED with a
diagnostic, recognized codes round-trip -/

/-- C7: for every enumeration of `_types.py` (`Currency`,
`EnergyMarketCodeType`, `DeliveryDuration`, `OrderExecutionOption`,
`OrderType`, `MarketSide`, `OrderState`, `TradeState`, `StateReason`,
`MarketActor`), `from_pb` is total (it is a Lean function): an
unrecognized wire code decodes to the `UNSPECIFIED` member with the
warning diagnostic emitted, and a recognized wire code decodes without a
diagnostic to a member that re-encodes to the original code. -/
theorem c7_enum_decode_total :
    (∀ c : Int,
      (enumRecognized Currency.members Currency.toPb c = false →
        Currency.fromPbLogged c = (Currency.UNSPECIFIED, true)) ∧
      (enumRecognized Currency.members Currency.toPb c = true →
        (Currency.fromPbLogged c).2 = false ∧ Currency.toPb (Currency.fromPb c) = c)) ∧
    (∀ c : Int,
      (enumRecognized EnergyMarketCodeType.members EnergyMarketCodeType.toPb c = false →
        EnergyMarketCodeType.fromPbLogged c = (EnergyMarketCodeType.UNSPECIFIED, true)) ∧
      (enumRecognized EnergyMarketCodeType.members EnergyMarketCodeType.toPb c = true →
        (EnergyMarketCodeType.fromPbLogged c).2 = false ∧
          EnergyMarketCodeType.toPb (EnergyMarketCodeType.fromPb c) = c)) ∧
    (∀ c : Int,
      (enumRecognized DeliveryDuration.members DeliveryDuration.toPb c = false →
        DeliveryDuration.fromPbLogged c = (DeliveryDuration.UNSPECIFIED, true)) ∧
      (enumRecognized DeliveryDuration.members DeliveryDuration.toPb c = true →
        (DeliveryDuration.fromPbLogged c).2 = false ∧
          DeliveryDuration.toPb (DeliveryDuration.fromPb c) = c)) ∧
    (∀ c : Int,
      (enumRecognized OrderExecutionOption.members OrderExecutionOption.toPb c = false →
        OrderExecutionOption.fromPbLogged c = (OrderExecutionOption.UNSPECIFIED, true)) ∧
      (enumRecognized OrderExecutionOption.members OrderExecutionOption.toPb c = true →
        (OrderExecutionOption.fromPbLogged c).2 = false ∧
          OrderExecutionOption.toPb (OrderExecutionOption.fromPb c) = c)) ∧
    (∀ c : Int,
      (enumRecognized OrderType.members OrderType.toPb c = false →
        OrderType.fromPbLogged c = (OrderType.UNSPECIFIED, true)) ∧
      (enumRecognized OrderType.members OrderType.toPb c = true →
        (OrderType.fromPbLogged c).2 = false ∧ OrderType.toPb (OrderType.fromPb c) = c)) ∧
    (∀ c : Int,
      (enumRecognized MarketSide.members MarketSide.toPb c = false →
        MarketSide.fromPbLogged c = (MarketSide.UNSPECIFIED, true)) ∧
      (enumRecognized MarketSide.members MarketSide.toPb c = true →
        (MarketSide.fromPbLogged c).2 = false ∧ MarketSide.toPb (MarketSide.fromPb c) = c)) ∧
    (∀ c : Int,
      (enumRecognized OrderState.members OrderState.toPb c = false →
        OrderState.fromPbLogged c = (OrderState.UNSPECIFIED, true)) ∧
      (enumRecognized OrderState.members OrderState.toPb c = true →
        (OrderState.fromPbLogged c).2 = false ∧ OrderState.toPb (OrderState.fromPb c) = c)) ∧
    (∀ c : Int,
      (enumRecognized TradeState.members TradeState.toPb c = false →
        TradeState.fromPbLogged c = (TradeState.UNSPECIFIED, true)) ∧
      (enumRecognized TradeState.members TradeState.toPb c = true →
        (TradeState.fromPbLogged c).2 = false ∧ TradeState.toPb (TradeState.fromPb c) = c)) ∧
    (∀ c : Int,
      (enumRecognized StateReason.members StateReason.toPb c = false →
        StateReason.fromPbLogged c = (StateReason.UNSPECIFIED, true)) ∧
      (enumRecognized StateReason.members StateReason.toPb c = true →
        (StateReason.fromPbLogged c).2 = false ∧ StateReason.toPb (StateReason.fromPb c) = c)) ∧
    (∀ c : Int,
      (enumRecognized MarketActor.members MarketActor.toPb c = false →
        MarketActor.fromPbLogged c = (MarketActor.UNSPECIFIED, true)) ∧
      (enumRecognized MarketActor.members MarketActor.toPb c = true →
        (MarketActor.fromPbLogged c).2 = false ∧ MarketActor.toPb (MarketActor.fromPb c) = c)) := by
  refine ⟨?_, ?_, ?_, ?_, ?_, ?_, ?_, ?_, ?_, ?_⟩ <;>
    exact fun c =>
      ⟨fun h => enumFromPbLogged_of_not_recognized _ _ _ _ h,
       fun h => enumFromPbLogged_of_recognized _ _ _ _ h⟩

/-- Witness for C7 at concrete codes: `99` is unrecognized and decodes to
`UNSPECIFIED` with the diagnostic; `3` is recognized and round-trips. -/
theorem c7_enum_decode_total_witness :
    Currency.fromPbLogged 99 = (Currency.UNSPECIFIED, true) ∧
      Currency.toPb (Currency.fromPb 3) = 3 :=
  ⟨(c7_enum_decode_total.1 99).1 (by decide),
   ((c7_enum_decode_total.1 3).2 (by decide)).2⟩

/-! ### C1: decode-after-encode round trip -/

/-- C1 counterexample: the round trip does not hold for every mapped type.
`PaginationParams(page_size=None, page_token=None)` encodes to a wire
message with both proto3 scalars unset, and `from_pb` reads them back as
`0` and `""` — not `None` — so `from_pb(to_pb(v)) != v`. -/
theorem c1_counterexample :
    PaginationParams.fromPb (PaginationParams.toPb ⟨none, none⟩) ≠
      (⟨none, none⟩ : PaginationParams) := by
  decide

/-- C1 (amended): the round trip `from_pb(to_pb(v)) == v` holds for
`Price`, `Energy` and `DeliveryArea` for every domain value, and for
`DeliveryPeriod` it reproduces the start and the duration (a fresh object
is constructed, so Python's identity-based `==` on the periods themselves
is not preserved) whenever the stored duration is one of the four legal
ones; it does not extend to the types whose optional fields collapse with
wire defaults (e.g. `PaginationParams` with `None` fields decodes to
`0` / `""`). -/
theorem c1_roundtrip_core :
    (∀ p : Price, Price.fromPb (Price.toPb p) = p) ∧
    (∀ e : Energy, Energy.fromPb (Energy.toPb e) = e) ∧
    (∀ d : DeliveryArea, DeliveryArea.fromPb (DeliveryArea.toPb d) = d) ∧
    (∀ (p : DeliveryPeriod) (oid : Nat), p.duration ≠ DeliveryDuration.UNSPECIFIED →
      DeliveryPeriod.fromPb p.toPb oid = .ok ⟨oid, p.start, p.duration⟩) := by
  refine ⟨?_, ?_, ?_, ?_⟩
  · intro p
    obtain ⟨⟨a⟩, c⟩ := p
    simp [Price.fromPb, Price.toPb, currency_fromPb_toPb]
  · intro e
    obtain ⟨⟨m⟩⟩ := e
    rfl
  · intro d
    obtain ⟨cd, ct⟩ := d
    simp [DeliveryArea.fromPb, DeliveryArea.toPb, energyMarketCodeType_fromPb_toPb]
  · intro p oid h
    obtain ⟨o, s, d⟩ := p
    cases d with
    | UNSPECIFIED => exact absurd rfl h
    | MINUTES_5 => rfl
    | MINUTES_15 => rfl
    | MINUTES_30 => rfl
    | MINUTES_60 => rfl

/-- Witness for C1 (amended) at a concrete delivery period. -/
theorem c1_roundtrip_core_witness :
    DeliveryPeriod.fromPb
        (DeliveryPeriod.toPb ⟨7, ⟨1700000000000000⟩, DeliveryDuration.MINUTES_30⟩) 3 =
      .ok ⟨3, ⟨1700000000000000⟩, DeliveryDuration.MINUTES_30⟩ :=
  c1_roundtrip_core.2.2.2 ⟨7, ⟨1700000000000000⟩, DeliveryDuration.MINUTES_30⟩ 3
    (by decide)

/-! ### C3: delivery period duration validation -/

theorem deliveryDuration_fromPb_unknown (c : Int) (h0 : c ≠ 0) (h1 : c ≠ 1)
    (h2 : c ≠ 2) (h3 : c ≠ 3) (h4 : c ≠ 4) :
    DeliveryDuration.fromPb c = DeliveryDuration.UNSPECIFIED := by
  have hrec : enumRecognized DeliveryDuration.members DeliveryDuration.toPb c = false := by
    simp only [enumRecognized, DeliveryDuration.members, DeliveryDuration.toPb,
      List.any_cons, List.any_nil, Bool.or_false, Bool.or_eq_false_iff,
      beq_eq_false_iff_ne, ne_eq]
    omega
  have hres := enumFromPbLogged_of_not_recognized DeliveryDuration.members
    DeliveryDuration.UNSPECIFIED DeliveryDuration.toPb c hrec
  unfold DeliveryDuration.fromPb DeliveryDuration.fromPbLogged
  rw [hres]

/-- C3: `DeliveryPeriod.__init__` succeeds exactly on durations of 5, 15,
30 or 60 minutes and raises `ValueError` otherwise; `DeliveryPeriod.from_pb`
succeeds exactly on the four recognized duration codes (everything else —
including `UNSPECIFIED` and unknown codes — raises `ValueError`); and every
successfully constructed period round-trips through `to_pb` / `from_pb`
with its start and duration unchanged. -/
theorem c3_delivery_period_validation :
    (∀ (oid : Nat) (start : PyDatetime) (us : Int),
      (DeliveryPeriod.init oid start us).isOk = true ↔
        us = 5 * microsPerMinute ∨ us = 15 * microsPerMinute ∨
          us = 30 * microsPerMinute ∨ us = 60 * microsPerMinute) ∧
    (∀ (w : PbDeliveryPeriod) (oid : Nat),
      (DeliveryPeriod.fromPb w oid).isOk = true ↔
        w.duration = 1 ∨ w.duration = 2 ∨ w.duration = 3 ∨ w.duration = 4) ∧
    (∀ (oid : Nat) (start : PyDatetime) (us : Int) (d : DeliveryPeriod),
      DeliveryPeriod.init oid start us = .ok d →
        ∀ oid2 : Nat, DeliveryPeriod.fromPb d.toPb oid2 = .ok ⟨oid2, d.start, d.duration⟩) := by
  refine ⟨?_, ?_, ?_⟩
  · intro oid start us
    constructor
    · intro hok
      unfold DeliveryPeriod.init at hok
      split_ifs at hok with i1 i2 i3 i4
      · exact Or.inl (by simpa using i1)
      · exact Or.inr (Or.inl (by simpa using i2))
      · exact Or.inr (Or.inr (Or.inl (by simpa using i3)))
      · exact Or.inr (Or.inr (Or.inr (by simpa using i4)))
      · exact Bool.noConfusion hok
    · rintro (h | h | h | h) <;> subst h <;> rfl
  · intro w oid
    obtain ⟨st, c⟩ := w
    constructor
    · intro hok
      by_contra hn
      push_neg at hn
      obtain ⟨hn1, hn2, hn3, hn4⟩ := hn
      by_cases h0 : c = 0
      · subst h0
        exact Bool.noConfusion hok
      · have hu := deliveryDuration_fromPb_unknown c h0 hn1 hn2 hn3 hn4
        unfold DeliveryPeriod.fromPb at hok
        rw [hu] at hok
        exact Bool.noConfusion hok
    · rintro (h | h | h | h) <;> subst h <;> rfl
  · intro oid start us d hinit oid2
    unfold DeliveryPeriod.init at hinit
    split_ifs at hinit
    · injection hinit with h; subst h; rfl
    · injection hinit with h; subst h; rfl
    · injection hinit with h; subst h; rfl
    · injection hinit with h; subst h; rfl

/-- Witness for C3 at concrete inputs: 20 minutes is rejected, 15 minutes
is accepted and round-trips. -/
theorem c3_delivery_period_validation_witness :
    ((DeliveryPeriod.init 0 ⟨0⟩ (20 * microsPerMinute)).isOk = false) ∧
      DeliveryPeriod.fromPb
          (DeliveryPeriod.toPb ⟨4, ⟨12345⟩, DeliveryDuration.MINUTES_15⟩) 9 =
        .ok ⟨9, ⟨12345⟩, DeliveryDuration.MINUTES_15⟩ := by
  constructor
  · have h := (c3_delivery_period_validation.1 0 ⟨0⟩ (20 * microsPerMinute))
    have : ¬((DeliveryPeriod.init 0 ⟨0⟩ (20 * microsPerMinute)).isOk = true) := by
      rw [h]
      decide
    exact Bool.eq_false_iff.mpr (fun hc => this hc)
  · exact c3_delivery_period_validation.2.2 0 ⟨12345⟩ (15 * microsPerMinute)
      ⟨0, ⟨12345⟩, DeliveryDuration.MINUTES_15⟩ (by decide) 9

/-! ### C2: update validation and field mask -/

theorem PyOpt.isProvided_eq_false {α : Type} (p : PyOpt α) :
    p.isProvided = false ↔ p = .noValue := by
  cases p <;> simp [PyOpt.isProvided]

/-- The names of the provided parameters, in `params` order — the value
the source computes as the field-mask `paths`. -/
def providedNames (a : UpdateOrderArgs) : List String :=
  ((updateParams a).filter (fun p => p.2)).map Prod.fst

/-- C2: `update_gridpool_order` raises `ValueError` — before any request
is built or sent — exactly when all nine updatable keyword arguments are
the `NO_VALUE` sentinel; otherwise it builds the request whose field mask
is exactly the list of names of the provided parameters (a parameter
passed as an explicit `None` counts as provided).  In particular, with a
single provided parameter the mask is that one name (see the witness). -/
theorem c2_update_mask (gid oid : Int) (a : UpdateOrderArgs) :
    ((updateGridpoolOrder gid oid a).isOk = false ↔
      (a.price = .noValue ∧ a.quantity = .noValue ∧ a.stop_price = .noValue ∧
        a.peak_price_delta = .noValue ∧ a.display_quantity = .noValue ∧
        a.execution_option = .noValue ∧ a.valid_until = .noValue ∧
        a.payload = .noValue ∧ a.tag = .noValue)) ∧
    (∀ r, updateGridpoolOrder gid oid a = .ok r → r.update_mask = providedNames a) := by
  constructor
  · unfold updateGridpoolOrder
    split_ifs with hall
    · have hfields : a.price = .noValue ∧ a.quantity = .noValue ∧
          a.stop_price = .noValue ∧ a.peak_price_delta = .noValue ∧
          a.display_quantity = .noValue ∧ a.execution_option = .noValue ∧
          a.valid_until = .noValue ∧ a.payload = .noValue ∧ a.tag = .noValue := by
        simp only [updateParams, List.all_cons, List.all_nil, Bool.and_true,
          Bool.and_eq_true, Bool.not_eq_true', PyOpt.isProvided_eq_false] at hall
        tauto
      exact ⟨fun _ => hfields, fun _ => rfl⟩
    · constructor
      · intro hfalse
        exact Bool.noConfusion hfalse
      · intro hc
        exfalso
        apply hall
        simp only [updateParams, List.all_cons, List.all_nil, Bool.and_true,
          Bool.and_eq_true, Bool.not_eq_true', PyOpt.isProvided_eq_false]
        tauto
  · intro r hr
    unfold updateGridpoolOrder at hr
    split_ifs at hr
    injection hr with h
    subst h
    rfl

/-- Witness for C2: with only `price` provided (as a value) the call
succeeds and the field mask is exactly `["price"]`; moreover, with all
nine arguments left at `NO_VALUE` the call fails. -/
theorem c2_update_mask_witness :
    (updateGridpoolOrder 1 2
        ⟨.val ⟨⟨"50"⟩, .EUR⟩, .noValue, .noValue, .noValue, .noValue, .noValue,
          .noValue, .noValue, .noValue⟩).isOk = true ∧
    (updateGridpoolOrder 1 2
        ⟨.noValue, .noValue, .noValue, .noValue, .noValue, .noValue,
          .noValue, .noValue, .noValue⟩).isOk = false ∧
    (∀ r, updateGridpoolOrder 1 2
        ⟨.val ⟨⟨"50"⟩, .EUR⟩, .noValue, .noValue, .noValue, .noValue, .noValue,
          .noValue, .noValue, .noValue⟩ = .ok r → r.update_mask = ["price"]) := by
  refine ⟨by decide, ?_, ?_⟩
  · exact (c2_update_mask 1 2
      ⟨.noValue, .noValue, .noValue, .noValue, .noValue, .noValue,
        .noValue, .noValue, .noValue⟩).1.mpr
      ⟨rfl, rfl, rfl, rfl, rfl, rfl, rfl, rfl, rfl⟩
  · intro r hr
    have h := (c2_update_mask 1 2
      ⟨.val ⟨⟨"50"⟩, .EUR⟩, .noValue, .noValue, .noValue, .noValue, .noValue,
        .noValue, .noValue, .noValue⟩).2 r hr
    rw [h]
    rfl

/-! ### C5 and C6: registry behaviour -/

/-- Registry invariant: no two entries have keys that Python `==`
identifies, i.e. at most one helper per key. -/
def goodKeys {κ : Type} (eq : κ → κ → Bool) (s : PyDict κ) : Prop :=
  List.Pairwise (fun a b => eq a.1 b.1 = false) s.entries

theorem streamSubscribe_found {κ : Type} (hash : κ → Except String Nat)
    (eq : κ → κ → Bool) (s : PyDict κ) (k : κ) (n : Nat) (e : κ × Helper)
    (hh : hash k = .ok n) (hf : dictFind? eq s.entries k = some e) :
    streamSubscribe hash eq s k = .ok (s, e.2.hid) := by
  unfold streamSubscribe
  rw [hh, hf]

theorem streamSubscribe_absent {κ : Type} (hash : κ → Except String Nat)
    (eq : κ → κ → Bool) (s : PyDict κ) (k : κ) (n : Nat)
    (hh : hash k = .ok n) (hf : dictFind? eq s.entries k = none) :
    streamSubscribe hash eq s k =
      .ok (⟨s.entries ++ [(k, ⟨s.nextHid⟩)], s.nextHid + 1⟩, s.nextHid) := by
  unfold streamSubscribe
  rw [hh, hf]

theorem streamSubscribe_preserves_goodKeys {κ : Type} (hash : κ → Except String Nat)
    (eq : κ → κ → Bool) (s : PyDict κ) (k : κ) (hg : goodKeys eq s) :
    ∀ res, streamSubscribe hash eq s k = .ok res → goodKeys eq res.1 := by
  intro res h
  unfold streamSubscribe at h
  cases hh : hash k with
  | error e => rw [hh] at h; exact Except.noConfusion h
  | ok n =>
    rw [hh] at h
    cases hf : dictFind? eq s.entries k with
    | some e =>
      rw [hf] at h
      injection h with h1
      rw [← h1]
      exact hg
    | none =>
      rw [hf] at h
      injection h with h1
      rw [← h1]
      unfold goodKeys
      rw [List.pairwise_append]
      refine ⟨hg, List.pairwise_singleton _ _, ?_⟩
      intro a ha b hb
      rw [List.mem_singleton] at hb
      subst hb
      have := List.find?_eq_none.mp hf a ha
      simpa using this

theorem clientStep_preserves_goodKeys {κ : Type} (hash : κ → Except String Nat)
    (eq : κ → κ → Bool) (s : PyDict κ) (ev : ClientEvent κ) (hg : goodKeys eq s) :
    goodKeys eq (clientStep hash eq s ev) := by
  cases ev with
  | upstreamTerminated k => exact hg
  | subscribeKey k =>
    simp only [clientStep]
    cases hres : streamSubscribe hash eq s k with
    | error e => exact hg
    | ok p =>
      obtain ⟨s1, r⟩ := p
      exact streamSubscribe_preserves_goodKeys hash eq s k hg (s1, r) hres

theorem foldl_clientStep_goodKeys {κ : Type} (hash : κ → Except String Nat)
    (eq : κ → κ → Bool) (s : PyDict κ) (hg : goodKeys eq s)
    (evs : List (ClientEvent κ)) :
    goodKeys eq (evs.foldl (clientStep hash eq) s) := by
  induction evs generalizing s with
  | nil => exact hg
  | cons e t ih => exact ih _ (clientStep_preserves_goodKeys hash eq s e hg)

/-- C5: for the registry mechanism shared by the three `stream_*` methods
(instantiated with each method's key hash and equality): a call whose key
is already present returns a receiver from the existing helper and leaves
the registry — entries and construction counter — unchanged; a call whose
key is absent appends exactly one new helper (one factory wrapped, the
counter advances by one); the at-most-one-helper-per-key invariant is
preserved by every call and holds after any event sequence from the empty
registry. -/
theorem c5_stream_dedup {κ : Type} (hash : κ → Except String Nat)
    (eq : κ → κ → Bool) (s : PyDict κ) (k : κ) (n : Nat) (hh : hash k = .ok n) :
    (∀ e, dictFind? eq s.entries k = some e →
      streamSubscribe hash eq s k = .ok (s, e.2.hid)) ∧
    (dictFind? eq s.entries k = none →
      streamSubscribe hash eq s k =
        .ok (⟨s.entries ++ [(k, ⟨s.nextHid⟩)], s.nextHid + 1⟩, s.nextHid)) ∧
    (goodKeys eq s → ∀ res, streamSubscribe hash eq s k = .ok res → goodKeys eq res.1) ∧
    (∀ evs : List (ClientEvent κ),
      goodKeys eq (evs.foldl (clientStep hash eq) PyDict.empty)) := by
  refine ⟨?_, ?_, ?_, ?_⟩
  · intro e he
    exact streamSubscribe_found hash eq s k n e hh he
  · intro he
    exact streamSubscribe_absent hash eq s k n hh he
  · intro hg res hres
    exact streamSubscribe_preserves_goodKeys hash eq s k hg res hres
  · intro evs
    exact foldl_clientStep_goodKeys hash eq PyDict.empty List.Pairwise.nil evs

/-- Witness for C5 on the gridpool-orders registry: subscribing on the
empty registry with a hashable key registers helper `0`, and subscribing
again with an equal key reuses it without constructing another helper. -/
theorem c5_stream_dedup_witness :
    streamSubscribe ordersKeyHash ordersKeyEq PyDict.empty
        ((1 : Int), (⟨none, none, none, none, none⟩ : GridpoolOrderFilter)) =
      .ok (⟨[(((1 : Int), ⟨none, none, none, none, none⟩), ⟨0⟩)], 1⟩, 0) ∧
    streamSubscribe ordersKeyHash ordersKeyEq
        ⟨[(((1 : Int), (⟨none, none, none, none, none⟩ : GridpoolOrderFilter)), ⟨0⟩)], 1⟩
        ((1 : Int), ⟨none, none, none, none, none⟩) =
      .ok (⟨[(((1 : Int), ⟨none, none, none, none, none⟩), ⟨0⟩)], 1⟩, 0) :=
  ⟨(c5_stream_dedup ordersKeyHash ordersKeyEq PyDict.empty
      ((1 : Int), ⟨none, none, none, none, none⟩) 3 (by decide)).2.1 (by decide),
   (c5_stream_dedup ordersKeyHash ordersKeyEq
      ⟨[(((1 : Int), ⟨none, none, none, none, none⟩), ⟨0⟩)], 1⟩
      ((1 : Int), ⟨none, none, none, none, none⟩) 3 (by decide)).1
      (((1 : Int), ⟨none, none, none, none, none⟩), ⟨0⟩) (by decide)⟩

/-- A hashable gridpool-orders subscription key used in concrete runs. -/
def exampleOrdersKey : OrdersKey :=
  (1, ⟨none, none, none, none, none⟩)

/-- C6 counterexample: after a subscription for a key and the termination
of its upstream stream, the registry entry is still present (nothing in
`_client.py` removes it), and a subsequent subscribe with the same key
returns a receiver from the original helper `0` without constructing a
new helper (`nextHid` stays `1`), contradicting the claimed
remove-and-reopen behaviour. -/
theorem c6_counterexample :
    (List.foldl (clientStep ordersKeyHash ordersKeyEq) PyDict.empty
        [ClientEvent.subscribeKey exampleOrdersKey,
         ClientEvent.upstreamTerminated exampleOrdersKey]).entries.map Prod.fst =
      [exampleOrdersKey] ∧
    streamSubscribe ordersKeyHash ordersKeyEq
        (List.foldl (clientStep ordersKeyHash ordersKeyEq) PyDict.empty
          [ClientEvent.subscribeKey exampleOrdersKey,
           ClientEvent.upstreamTerminated exampleOrdersKey])
        exampleOrdersKey =
      .ok (⟨[(exampleOrdersKey, ⟨0⟩)], 1⟩, 0) := by
  decide

/-- C6 (amended): upstream termination does not modify the client's
stream registries — `_client.py` has no code path that removes a registry
entry — so every registered key survives every event, and a subsequent
subscribe with the same key finds the old entry and returns a receiver
from the original helper instead of invoking the factory-construction
branch again. -/
theorem c6_registry_never_pruned {κ : Type} (hash : κ → Except String Nat)
    (eq : κ → κ → Bool) (s : PyDict κ) (k : κ) :
    clientStep hash eq s (.upstreamTerminated k) = s ∧
    (∀ (ev : ClientEvent κ) (k2 : κ), k2 ∈ s.entries.map Prod.fst →
      k2 ∈ (clientStep hash eq s ev).entries.map Prod.fst) ∧
    (∀ (e : κ × Helper) (n : Nat), dictFind? eq s.entries k = some e →
      hash k = .ok n → streamSubscribe hash eq s k = .ok (s, e.2.hid)) := by
  refine ⟨rfl, ?_, ?_⟩
  · intro ev k2 hk2
    cases ev with
    | upstreamTerminated k3 => exact hk2
    | subscribeKey k3 =>
      simp only [clientStep]
      cases hres : streamSubscribe hash eq s k3 with
      | error e => exact hk2
      | ok p =>
        obtain ⟨s1, r⟩ := p
        unfold streamSubscribe at hres
        cases hh : hash k3 with
        | error m => rw [hh] at hres; exact Except.noConfusion hres
        | ok n =>
          rw [hh] at hres
          cases hf : dictFind? eq s.entries k3 with
          | some e =>
            rw [hf] at hres
            injection hres with h1
            have hs : s1 = s := (congrArg Prod.fst h1).symm
            rw [hs]
            exact hk2
          | none =>
            rw [hf] at hres
            injection hres with h1
            have hs : s1 = (⟨s.entries ++ [(k3, ⟨s.nextHid⟩)], s.nextHid + 1⟩ : PyDict κ) :=
              (congrArg Prod.fst h1).symm
            rw [hs]
            simp only [List.map_append, List.mem_append]
            exact Or.inl hk2
  · intro e n hf hh
    exact streamSubscribe_found hash eq s k n e hh hf

/-- Witness for C6 (amended) at a concrete registry. -/
theorem c6_registry_never_pruned_witness :
    clientStep ordersKeyHash ordersKeyEq ⟨[(exampleOrdersKey, ⟨0⟩)], 1⟩
        (.upstreamTerminated exampleOrdersKey) =
      (⟨[(exampleOrdersKey, ⟨0⟩)], 1⟩ : PyDict OrdersKey) ∧
    streamSubscribe ordersKeyHash ordersKeyEq ⟨[(exampleOrdersKey, ⟨0⟩)], 1⟩
        exampleOrdersKey =
      .ok (⟨[(exampleOrdersKey, ⟨0⟩)], 1⟩, 0) :=
  ⟨(c6_registry_never_pruned ordersKeyHash ordersKeyEq
      ⟨[(exampleOrdersKey, ⟨0⟩)], 1⟩ exampleOrdersKey).1,
   (c6_registry_never_pruned ordersKeyHash ordersKeyEq
      ⟨[(exampleOrdersKey, ⟨0⟩)], 1⟩ exampleOrdersKey).2.2
      (exampleOrdersKey, ⟨0⟩) 3 (by decide) (by decide)⟩

/-! ### C4: structural key equality -/

theorem optPyEq_period_hash (dp1 dp2 : Option DeliveryPeriod)
    (h : optPyEq DeliveryPeriod.pyEq dp1 dp2 = true) :
    optHash DeliveryPeriod.pyHash dp1 = optHash DeliveryPeriod.pyHash dp2 := by
  cases dp1 <;> cases dp2 <;>
    simp_all [optPyEq, DeliveryPeriod.pyEq, DeliveryPeriod.pyHash, optHash]

/-- A delivery period of 5 minutes, allocated as object `0`. -/
def examplePeriodA : DeliveryPeriod := ⟨0, ⟨86400000000⟩, .MINUTES_5⟩

/-- A separately constructed delivery period with the same start and the
same duration, allocated as object `1`. -/
def examplePeriodB : DeliveryPeriod := ⟨1, ⟨86400000000⟩, .MINUTES_5⟩

/-- C4 counterexample: two gridpool-order filters whose field values are
all equal — the nested `DeliveryPeriod`s have the same start and the same
duration but were constructed separately — are not equal as Python
values, because `DeliveryPeriod` is a plain class compared by object
identity; consequently a second subscribe with the structurally equal key
constructs a second helper (`nextHid` becomes `2`) instead of reusing the
existing stream. -/
theorem c4_counterexample :
    examplePeriodA.start = examplePeriodB.start ∧
    examplePeriodA.duration = examplePeriodB.duration ∧
    GridpoolOrderFilter.pyEq ⟨none, none, some examplePeriodA, none, none⟩
        ⟨none, none, some examplePeriodB, none, none⟩ = false ∧
    streamGridpoolOrders PyDict.empty 1 none none none (some examplePeriodA) none =
      .ok (⟨[((1, ⟨none, none, some examplePeriodA, none, none⟩), ⟨0⟩)], 1⟩, 0) ∧
    streamGridpoolOrders
        ⟨[((1, ⟨none, none, some examplePeriodA, none, none⟩), ⟨0⟩)], 1⟩
        1 none none none (some examplePeriodB) none =
      .ok (⟨[((1, ⟨none, none, some examplePeriodA, none, none⟩), ⟨0⟩),
             ((1, ⟨none, none, some examplePeriodB, none, none⟩), ⟨1⟩)], 2⟩, 1) := by
  decide

/-- C4 (amended): subscription-key equality and hashing are structural in
every field except the nested `DeliveryPeriod`, which Python compares and
hashes by object identity.  Two filters with equal field values whose
`delivery_period`s are the same object (or both `None`) are equal and
hash equal (hashing requires `order_states = None`, else it raises), and
a second subscribe with such a key reuses the registered helper without
constructing a new one; a structurally equal but separately constructed
`DeliveryPeriod` yields an unequal key (see the counterexample). -/
theorem c4_structural_key_equality (sd : Option MarketSide)
    (dp1 dp2 : Option DeliveryPeriod) (da : Option DeliveryArea)
    (tg : Option String) (hdp : optPyEq DeliveryPeriod.pyEq dp1 dp2 = true) :
    GridpoolOrderFilter.pyEq ⟨none, sd, dp1, da, tg⟩ ⟨none, sd, dp2, da, tg⟩ = true ∧
    GridpoolOrderFilter.pyHash ⟨none, sd, dp1, da, tg⟩ =
      GridpoolOrderFilter.pyHash ⟨none, sd, dp2, da, tg⟩ ∧
    (∀ (gid : Int) (hh : Helper) (nh : Nat),
      streamGridpoolOrders ⟨[((gid, ⟨none, sd, dp1, da, tg⟩), hh)], nh⟩
          gid none sd da dp2 tg =
        .ok (⟨[((gid, ⟨none, sd, dp1, da, tg⟩), hh)], nh⟩, hh.hid)) := by
  have hpe : GridpoolOrderFilter.pyEq ⟨none, sd, dp1, da, tg⟩
      ⟨none, sd, dp2, da, tg⟩ = true := by
    simp [GridpoolOrderFilter.pyEq, hdp]
  refine ⟨hpe, ?_, ?_⟩
  · simp only [GridpoolOrderFilter.pyHash, optPyEq_period_hash dp1 dp2 hdp]
  · intro gid hh nh
    have hpe2 : ordersKeyEq ((gid, ⟨none, sd, dp1, da, tg⟩) : OrdersKey)
        (gid, ⟨none, sd, dp2, da, tg⟩) = true := by
      simp [ordersKeyEq, hpe]
    have hfind : dictFind? ordersKeyEq [((gid, ⟨none, sd, dp1, da, tg⟩), hh)]
        ((gid, ⟨none, sd, dp2, da, tg⟩) : OrdersKey) =
        some ((gid, ⟨none, sd, dp1, da, tg⟩), hh) := by
      unfold dictFind?
      exact List.find?_cons_of_pos _ hpe2
    obtain ⟨n, hn⟩ : ∃ n, ordersKeyHash
        ((gid, ⟨none, sd, dp2, da, tg⟩) : OrdersKey) = .ok n := ⟨_, rfl⟩
    exact streamSubscribe_found ordersKeyHash ordersKeyEq
      ⟨[((gid, ⟨none, sd, dp1, da, tg⟩), hh)], nh⟩
      (gid, ⟨none, sd, dp2, da, tg⟩) n ((gid, ⟨none, sd, dp1, da, tg⟩), hh) hn hfind

/-- Witness for C4 (amended): the same period object (or `None`) on both
sides gives equal, hash-equal keys and stream reuse. -/
theorem c4_structural_key_equality_witness :
    GridpoolOrderFilter.pyEq ⟨none, none, some examplePeriodA, none, none⟩
        ⟨none, none, some examplePeriodA, none, none⟩ = true ∧
    streamGridpoolOrders
        ⟨[((2, ⟨none, none, some examplePeriodA, none, none⟩), ⟨0⟩)], 1⟩
        2 none none none (some examplePeriodA) none =
      .ok (⟨[((2, ⟨none, none, some examplePeriodA, none, none⟩), ⟨0⟩)], 1⟩, 0) :=
  ⟨(c4_structural_key_equality none (some examplePeriodA) (some examplePeriodA)
      none none (by decide)).1,
   (c4_structural_key_equality none (some examplePeriodA) (some examplePeriodA)
      none none (by decide)).2.2 2 ⟨0⟩ 1⟩

/-! ### C8: unset versus set-to-default on the wire -/

/-- C8 counterexample: on a wire `GridpoolOrderFilter` whose optional
fields are absent (only `delivery_period` set, to a 5-minute period),
decoding yields `[]`, `UNSPECIFIED` and `""` — never `None` — and on a
wire message whose `delivery_period` is also absent, decoding raises
`ValueError` instead of producing `None` fields, refuting "every optional
field absent from a wire message decodes to None". -/
theorem c8_counterexample :
    GridpoolOrderFilter.fromPb ⟨[], 0, some ⟨⟨0⟩, 1⟩, none, ""⟩ 0 =
      .ok ⟨some [], some .UNSPECIFIED, some ⟨0, ⟨0⟩, .MINUTES_5⟩,
        some ⟨"", .UNSPECIFIED⟩, some ""⟩ ∧
    GridpoolOrderFilter.fromPb ⟨[], 0, none, none, ""⟩ 0 =
      .error "Invalid duration value. Duration must be 5, 15, 30, or 60 minutes." := by
  decide

/-- An order with every optional field `None`. -/
def exampleOrder : Order :=
  ⟨⟨"10YDE", .EUROPE_EIC⟩, examplePeriodA, .LIMIT, .BUY, ⟨⟨"50"⟩, .EUR⟩, ⟨⟨"2"⟩⟩,
    none, none, none, none, none, none, none⟩

/-- The filter decoded from the C8 counterexample wire message. -/
def exampleDecodedFilter : GridpoolOrderFilter :=
  ⟨some [], some .UNSPECIFIED, some ⟨0, ⟨0⟩, .MINUTES_5⟩, some ⟨"", .UNSPECIFIED⟩, some ""⟩

/-- C8 (amended): for `Order`, every optional domain field equal to `None`
is omitted from the encoded message, and the wire fields read back through
explicit presence checks (`stop_price`, `peak_price_delta`,
`display_quantity`, `execution_option` via `HasField`; `tag` via string
truthiness) decode to `None` when absent.  For the filter types, `None`
fields are likewise omitted on encode, but absent wire fields decode to
zero values (`[]`, `UNSPECIFIED`, `""`) rather than `None`, and an absent
`delivery_period` makes decoding raise, so the unset / set-to-default
distinction is not preserved on the filter decode path. -/
theorem c8_optional_field_presence :
    (∀ o : Order,
      (o.stop_price = none → (Order.toPb o).stop_price = none) ∧
      (o.peak_price_delta = none → (Order.toPb o).peak_price_delta = none) ∧
      (o.display_quantity = none → (Order.toPb o).display_quantity = none) ∧
      (o.execution_option = none → (Order.toPb o).execution_option = none) ∧
      (o.valid_until = none → (Order.toPb o).valid_until = none) ∧
      (o.payload = none → (Order.toPb o).payload = none) ∧
      (o.tag = none → (Order.toPb o).tag = "")) ∧
    (∀ (w : PbOrder) (oid : Nat) (o : Order), Order.fromPb w oid = .ok o →
      (w.stop_price = none → o.stop_price = none) ∧
      (w.peak_price_delta = none → o.peak_price_delta = none) ∧
      (w.display_quantity = none → o.display_quantity = none) ∧
      (w.execution_option = none → o.execution_option = none) ∧
      (w.tag = "" → o.tag = none)) ∧
    (GridpoolOrderFilter.toPb ⟨none, none, none, none, none⟩ =
      ⟨[], 0, none, none, ""⟩) ∧
    (∀ (w : PbGridpoolOrderFilter) (oid : Nat) (f : GridpoolOrderFilter),
      GridpoolOrderFilter.fromPb w oid = .ok f →
        f.order_states = some (w.states.map OrderState.fromPb) ∧
        f.side = some (MarketSide.fromPb w.side) ∧
        f.tag = some w.tag) ∧
    (∀ (w : PbGridpoolOrderFilter) (oid : Nat), w.delivery_period = none →
      (GridpoolOrderFilter.fromPb w oid).isOk = false) := by
  refine ⟨?_, ?_, rfl, ?_, ?_⟩
  · intro o
    refine ⟨fun h => ?_, fun h => ?_, fun h => ?_, fun h => ?_, fun h => ?_,
      fun h => ?_, fun h => ?_⟩ <;> simp [Order.toPb, h]
  · intro w oid o h
    unfold Order.fromPb at h
    cases hdp : DeliveryPeriod.fromPb w.delivery_period oid with
    | error e => rw [hdp] at h; exact Except.noConfusion h
    | ok dp =>
      rw [hdp] at h
      injection h with h1
      subst h1
      refine ⟨fun h2 => ?_, fun h2 => ?_, fun h2 => ?_, fun h2 => ?_, fun h2 => ?_⟩ <;>
        simp [h2]
  · intro w oid f h
    unfold GridpoolOrderFilter.fromPb at h
    cases hdp : DeliveryPeriod.fromPb (w.delivery_period.getD PbDeliveryPeriod.dflt) oid with
    | error e => rw [hdp] at h; exact Except.noConfusion h
    | ok dp =>
      rw [hdp] at h
      injection h with h1
      subst h1
      exact ⟨rfl, rfl, rfl⟩
  · intro w oid h
    unfold GridpoolOrderFilter.fromPb
    rw [h]
    rfl

/-- Witness for C8 (amended) at concrete values. -/
theorem c8_optional_field_presence_witness :
    (Order.toPb exampleOrder).stop_price = none ∧
    exampleDecodedFilter.tag = some "" ∧
    (GridpoolOrderFilter.fromPb ⟨[], 0, none, none, ""⟩ 0).isOk = false :=
  ⟨(c8_optional_field_presence.1 exampleOrder).1 rfl,
   ((c8_optional_field_presence.2.2.2.1 ⟨[], 0, some ⟨⟨0⟩, 1⟩, none, ""⟩ 0
      exampleDecodedFilter (by decide)).2.2).trans rfl,
   c8_optional_field_presence.2.2.2.2 ⟨[], 0, none, none, ""⟩ 0 rfl⟩

/-! ### C9: fan-out ordering and late joiners (spec-modelled pump) -/

/-- Pump invariant: every consumer joined at a prefix point of the pumped
history and holds exactly the items pumped since. -/
def PumpInv {α : Type} (s : PumpState α) : Prop :=
  ∀ c ∈ s.consumers, c.joinIdx ≤ s.log.length ∧ c.items = s.log.drop c.joinIdx

theorem pumpStep_inv {α : Type} (s : PumpState α) (ev : PumpEvent α)
    (h : PumpInv s) : PumpInv (pumpStep s ev) := by
  cases ev with
  | join =>
    intro c hc
    simp only [pumpStep, List.mem_append, List.mem_singleton] at hc
    cases hc with
    | inl hmem => exact h c hmem
    | inr heq => subst heq; exact ⟨le_refl _, (List.drop_length _).symm⟩
  | deliver a =>
    intro c hc
    simp only [pumpStep, List.mem_map] at hc
    obtain ⟨c0, hc0, rfl⟩ := hc
    obtain ⟨hle, hitems⟩ := h c0 hc0
    simp only [pumpStep, List.length_append, List.length_singleton]
    refine ⟨by omega, ?_⟩
    rw [hitems, List.drop_append_of_le_length hle]

theorem pumpRun_inv {α : Type} (s : PumpState α) (hs : PumpInv s)
    (evs : List (PumpEvent α)) : PumpInv (pumpRun s evs) := by
  induction evs generalizing s with
  | nil => exact hs
  | cons e t ih => exact ih _ (pumpStep_inv s e hs)

theorem pumpRun_log {α : Type} (s : PumpState α) (evs : List (PumpEvent α)) :
    (pumpRun s evs).log = s.log ++ delivered evs := by
  induction evs generalizing s with
  | nil => simp [pumpRun, delivered]
  | cons e t ih =>
    cases e with
    | join =>
      have := ih (pumpStep s .join)
      simpa [pumpRun, pumpStep, delivered] using this
    | deliver a =>
      have := ih (pumpStep s (.deliver a))
      simp only [pumpRun, pumpStep, delivered] at this ⊢
      rw [List.foldl_cons]
      simp only [pumpStep] at this ⊢
      rw [this]
      simp [List.filterMap_cons]

/-- C9: in the pump model (modelled from the spec, see `pumpStep`), every
consumer of a key holds exactly the contiguous tail of the upstream
sequence starting at its join point: items are delivered to every
consumer in the exact upstream order with no reordering across consumers,
a consumer registered before the first item sees the entire sequence, and
a late joiner sees nothing delivered before it joined. -/
theorem c9_fanout_ordering {α : Type} (evs : List (PumpEvent α)) (c : Consumer α)
    (hc : c ∈ (pumpRun PumpState.start evs).consumers) :
    (pumpRun PumpState.start evs).log = delivered evs ∧
    c.joinIdx ≤ (delivered evs).length ∧
    c.items = (delivered evs).drop c.joinIdx := by
  have hlog : (pumpRun PumpState.start evs).log = delivered evs := by
    have h := pumpRun_log PumpState.start evs
    simpa [PumpState.start] using h
  have hinv := pumpRun_inv PumpState.start
    (fun c hc => absurd hc (List.not_mem_nil c)) evs c hc
  obtain ⟨h1, h2⟩ := hinv
  rw [hlog] at h1 h2
  exact ⟨hlog, h1, h2⟩

/-- A scripted run: two consumers join, then `1, 2, 3` arrive. -/
def exampleEvs : List (PumpEvent Nat) :=
  [.join, .join, .deliver 1, .deliver 2, .deliver 3]

/-- The first consumer after the scripted run. -/
def exampleConsumer : Consumer Nat := ⟨0, 0, [1, 2, 3]⟩

/-- Witness for C9: with two consumers registered before the first item,
each observes `[1, 2, 3]` in upstream order. -/
theorem c9_fanout_ordering_witness :
    (pumpRun PumpState.start exampleEvs).log = delivered exampleEvs ∧
    exampleConsumer.joinIdx ≤ (delivered exampleEvs).length ∧
    exampleConsumer.items = (delivered exampleEvs).drop exampleConsumer.joinIdx :=
  c9_fanout_ordering exampleEvs exampleConsumer (by decide)

/-! ### C10: list-valued filter arguments make the key unhashable -/

/-- C10: a call to any of the three `stream_*` methods in which the
states argument (or the trade-ids argument) is a non-`None` list raises
`TypeError` at the registry lookup — the frozen dataclass key then hashes
a Python list — before any helper is constructed or any network activity
occurs (the registry is not touched). -/
theorem c10_list_filters_unhashable :
    (∀ (s : PyDict OrdersKey) (gid : Int) (l : List OrderState)
        (ms : Option MarketSide) (da : Option DeliveryArea)
        (dp : Option DeliveryPeriod) (tg : Option String),
      streamGridpoolOrders s gid (some l) ms da dp tg =
        .error "TypeError: unhashable type: list") ∧
    (∀ (s : PyDict TradesKey) (gid : Int) (l : List TradeState)
        (tids : Option (List Int)) (ms : Option MarketSide)
        (dp : Option DeliveryPeriod) (da : Option DeliveryArea),
      streamGridpoolTrades s gid (some l) tids ms dp da =
        .error "TypeError: unhashable type: list") ∧
    (∀ (s : PyDict TradesKey) (gid : Int) (ts : Option (List TradeState))
        (l : List Int) (ms : Option MarketSide)
        (dp : Option DeliveryPeriod) (da : Option DeliveryArea),
      streamGridpoolTrades s gid ts (some l) ms dp da =
        .error "TypeError: unhashable type: list") ∧
    (∀ (s : PyDict PublicTradeFilter) (l : List TradeState)
        (dp : Option DeliveryPeriod) (bda sda : Option DeliveryArea),
      streamPublicTrades s (some l) dp bda sda =
        .error "TypeError: unhashable type: list") := by
  refine ⟨?_, ?_, ?_, ?_⟩
  · intro s gid l ms da dp tg
    rfl
  · intro s gid l tids ms dp da
    rfl
  · intro s gid ts l ms dp da
    cases ts <;> rfl
  · intro s l dp bda sda
    rfl

end ElecTrading
